import Mathlib

/-!
Verification development for the pruva-sandbox scripts
(`scripts/test_codespaces_modal.py` and `scripts/sandbox_shell.py`).

The Python sources are shallowly embedded as executable Lean definitions:
pure fragments become Lean functions; the interactions with the Modal SDK
and with sockets are modelled by passing in explicitly the data those
collaborators would produce (recv chunks, sandbox-creation and exec
outcomes), and the calls the scripts make are recorded as event lists.
-/

namespace Pruva

/-! ## Data model: statuses, dependencies, task results -/

/-- Task status values used in the `result` dict of `run_single_test`:
`unknown` initially, then exactly one of `pass`, `fail`, `timeout`, `error`. -/
inductive Status where
  | pass
  | fail
  | timeout
  | error
  | unknown
deriving DecidableEq, Repr

/-- Kinds of missing dependency the classifier emits. The source uses the
strings "command", "python", "npm"; the spec calls the latter two
"interpreter-module" and "package" respectively. -/
inductive DepKind where
  | command
  | python
  | npm
deriving DecidableEq, Repr

/-- One entry of `result["missing_deps"]` in the source: a dict with keys
"type" and "name". -/
structure MissingDep where
  kind : DepKind
  name : String
deriving DecidableEq, Repr

/-- The `result` dict built by `run_single_test` (test_codespaces_modal.py
lines 133-141).  `duration_secs` is wall-clock time and is not modelled. -/
structure TaskResult where
  repro_id : String
  status : Status
  exit_code : Int
  stdout : String
  stderr : String
  missing_deps : List MissingDep
deriving DecidableEq, Repr

/-- Default used only to give `List.getD` a fallback value. -/
def defaultTaskResult : TaskResult :=
  { repro_id := "", status := .unknown, exit_code := -1,
    stdout := "", stderr := "", missing_deps := [] }

/-! ## Character-list helpers mirroring the Python string primitives -/

/-- Python `s.split(sep)` for a single-character separator `sep`
(the source only ever splits on ":" and on a newline). -/
def splitOnChar (sep : Char) : List Char → List (List Char)
  | [] => [[]]
  | c :: rest =>
    match splitOnChar sep rest with
    | [] => [[]]
    | grp :: gs => if c = sep then [] :: grp :: gs else (c :: grp) :: gs

/-- Python `s.strip()`: drop whitespace from both ends. -/
def stripChars (l : List Char) : List Char :=
  ((l.dropWhile Char.isWhitespace).reverse.dropWhile Char.isWhitespace).reverse

/-- Python `s[-n:]`: the last `n` characters of `s` (all of `s` when it is
shorter than `n`). -/
def pyTakeLast (n : Nat) (s : String) : String :=
  ⟨s.data.drop (s.data.length - n)⟩

/-- A single attempt of the regex `marker ++ "([^']+)'"` anchored at the
start of `s`: the marker literal, then a nonempty run of non-quote
characters, then a closing quote.  Returns the capture group. -/
def matchCapAt (marker : List Char) (s : List Char) : Option (List Char) :=
  if marker <+: s then
    let after := s.drop marker.length
    let cap := after.takeWhile (fun c => c ≠ '\'')
    if cap ≠ [] ∧ cap.length < after.length then some cap else none
  else none

/-- Python `re.search` for the pattern `marker ++ "([^']+)'"`: try every
start position left to right and return the first capture. -/
def reSearchCap (marker : List Char) : List Char → Option (List Char)
  | [] => none
  | c :: rest =>
    match matchCapAt marker (c :: rest) with
    | some cap => some cap
    | none => reSearchCap marker rest

/-! ## Result Classifier
(test_codespaces_modal.py lines 176-193, the loop over `output.split("\n")`) -/

/-- The body of the classification loop for one line of output:
1. `"command not found" in line` emits a command dependency named by
   `line.split(":")[-2].strip()` when it is nonempty and not
   starting with "/";
2. `re.search(r"No module named .([^']+).", line)` emits a python
   dependency;
3. `re.search(r"Cannot find module .([^']+).", line)` emits an npm
   dependency unless the name starts with "/" or ".". -/
def classifyLine (line : List Char) : List MissingDep :=
  (if "command not found".data <:+: line then
     let parts := splitOnChar ':' line
     if 2 ≤ parts.length then
       let cmd := stripChars (parts.reverse.getD 1 [])
       if cmd ≠ [] ∧ ¬ ("/".data <+: cmd) then [⟨.command, ⟨cmd⟩⟩] else []
     else []
   else [])
  ++ (match reSearchCap "No module named '".data line with
      | some cap => [⟨.python, ⟨cap⟩⟩]
      | none => [])
  ++ (match reSearchCap "Cannot find module '".data line with
      | some cap =>
        if "/".data <+: cap ∨ ".".data <+: cap then [] else [⟨.npm, ⟨cap⟩⟩]
      | none => [])

/-- The whole classification pass: iterate over the lines of
`output = result["stdout"] + result["stderr"]`, appending the detections
of each line to the accumulator `missing`, exactly as the Python loop does. -/
def classify (output : String) : List MissingDep :=
  (splitOnChar '\n' output.data).foldl (fun acc line => acc ++ classifyLine line) []

/-! ## Batch Runner
(`run_single_test` and `run_tests_parallel`, test_codespaces_modal.py
lines 129-235).  The Modal SDK calls are fallible remote operations; each
task's interaction with the SDK is modelled by an `SdkBehavior` value
describing what those calls would do for that task, and `run_single_test`
additionally records which lifecycle calls it performed. -/

/-- Outcome of `modal.Sandbox.create.aio` for one task: success, an
`asyncio.TimeoutError`, or some other exception (its type name and text). -/
inductive CreateOutcome where
  | ok
  | timeoutErr
  | exc (ename : String) (msg : String)
deriving DecidableEq, Repr

/-- Outcome of the `sb.exec` / stdout streaming / `proc.wait` block:
the streamed stdout lines and the return code on success, or an
`asyncio.TimeoutError`, or some other exception raised anywhere in it. -/
inductive ExecOutcome where
  | ok (lines : List String) (returncode : Int)
  | timeoutErr
  | exc (ename : String) (msg : String)
deriving DecidableEq, Repr

/-- What the SDK does for one task: the creation outcome, the exec outcome
(relevant only when creation succeeded), and whether `sb.terminate.aio`
itself raises (`some (ename, msg)`) or returns normally (`none`). -/
structure SdkBehavior where
  create : CreateOutcome
  exec : ExecOutcome
  terminate : Option (String × String)
deriving DecidableEq, Repr

/-- Sandbox lifecycle events recorded while a task runs: a successful
sandbox creation, and an invocation of `sb.terminate.aio`. -/
inductive SdkEvent where
  | created
  | terminated
deriving DecidableEq, Repr

/-- Model of `run_single_test` (lines 129-194): build the initial `result` dict,
run the `try` block (create sandbox, exec command, collect stdout,
terminate), downgrade `asyncio.TimeoutError` to status `timeout` and any
other exception to status `error` with `f"TypeName: text"` as stderr, then
classify `result["stdout"] + result["stderr"]` for missing dependencies.
Returns the final result together with the recorded lifecycle events. -/
def run_single_test (repro_id : String) (b : SdkBehavior) :
    TaskResult × List SdkEvent :=
  let base : TaskResult :=
    { repro_id := repro_id, status := .unknown, exit_code := -1,
      stdout := "", stderr := "", missing_deps := [] }
  let step : TaskResult × List SdkEvent :=
    match b.create with
    | .timeoutErr => ({ base with status := .timeout, stderr := "Sandbox timed out" }, [])
    | .exc ename msg => ({ base with status := .error, stderr := ename ++ ": " ++ msg }, [])
    | .ok =>
      match b.exec with
      | .timeoutErr =>
        ({ base with status := .timeout, stderr := "Sandbox timed out" }, [.created])
      | .exc ename msg =>
        ({ base with status := .error, stderr := ename ++ ": " ++ msg }, [.created])
      | .ok lines rc =>
        let r1 : TaskResult :=
          { base with exit_code := rc,
                      stdout := pyTakeLast 10000 (String.join lines),
                      status := if rc = 0 then .pass else .fail }
        match b.terminate with
        | none => (r1, [.created, .terminated])
        | some (ename, msg) =>
          ({ r1 with status := .error, stderr := ename ++ ": " ++ msg },
           [.created, .terminated])
  ({ step.1 with missing_deps := classify (step.1.stdout ++ step.1.stderr) }, step.2)

/-- Model of `run_tests_parallel` (lines 197-235): `asyncio.gather` over
`bounded_test(rid)` for each identifier.  `gather` resolves with one value
per submitted awaitable, in submission order; each `bounded_test` returns
the `run_single_test` result for its identifier.  The credential check and
console printing are not modelled; the semaphore discipline is modelled
separately below. -/
def run_tests_parallel (ids : List String) (b : String → SdkBehavior) :
    List TaskResult :=
  ids.map fun rid => (run_single_test rid (b rid)).1

/-- The failure counters of `print_results` (lines 266-268):
`failed` counts status `fail`. -/
def countFailed (rs : List TaskResult) : Nat :=
  rs.countP fun r => r.status == .fail

/-- The `errors` counter counts statuses `error` and `timeout` (line 268). -/
def countErrors (rs : List TaskResult) : Nat :=
  rs.countP fun r => r.status == .error || r.status == .timeout

/-- The exit decision of `async_main` (lines 362-363): `sys.exit(1)` when
`summary["failed"] > 0 or summary["errors"] > 0`, otherwise the process
falls off the end of `async_main` and exits 0. -/
def processExitCode (rs : List TaskResult) : Nat :=
  if 0 < countFailed rs ∨ 0 < countErrors rs then 1 else 0

/-! ## Tunnel Connector
(`_create_tunnel_socket`, test_codespaces_modal.py lines 76-98 and
sandbox_shell.py lines 49-70; the two copies are identical).  The socket is
modelled by the list of chunks successive `recv(4096)` calls yield; an
empty chunk, or exhaustion of the list, is the peer closing the
connection. -/

/-- The two `ConnectionError` cases `_create_tunnel_socket` raises: the
proxy closed the connection during CONNECT, or the CONNECT response status
line did not contain "200" (the status line is carried in the message). -/
inductive TunnelError where
  | closedEarly
  | connectFailed (statusLine : String)
deriving DecidableEq, Repr

/-- Result of the CONNECT handshake: the tunneled socket is handed back
(switched to non-blocking) for the TLS handshake, or the attempt failed. -/
inductive ConnectOutcome where
  | established
  | failed (e : TunnelError)
deriving DecidableEq, Repr

/-- The handshake outcome together with whether the code executed an
explicit `sock.close()` (it does so only on a non-200 status line). -/
structure TunnelOutcome where
  outcome : ConnectOutcome
  sockClosed : Bool
deriving DecidableEq, Repr

/-- The blank-line terminator `b"\r\n\r\n"` of the CONNECT response. -/
def crlfcrlf : List Char := "\r\n\r\n".data

/-- The read loop (lines 85-90): `resp` starts empty; while the terminator
is not in `resp`, `recv` a chunk, raising `ConnectionError` if the peer
closed (empty chunk or nothing more to yield), else append it. -/
def readUntilTerminator (chunks : List (List Char)) (acc : List Char) :
    Option (List Char) :=
  if crlfcrlf <:+: acc then some acc
  else
    match chunks with
    | [] => none
    | chunk :: rest =>
      if chunk = [] then none else readUntilTerminator rest (acc ++ chunk)

/-- Python `resp.split(b"\r\n")[0]`: everything before the first CRLF. -/
def bytesFirstLine : List Char → List Char
  | [] => []
  | '\r' :: '\n' :: _ => []
  | c :: rest => c :: bytesFirstLine rest

/-- The response-handling half of `_create_tunnel_socket` (lines 85-98):
read up to the terminator, decode the first response line, succeed iff it
contains `"200"`, closing the socket and failing with the status line
attached otherwise; fail without an explicit close when the proxy closed
before the terminator was seen. -/
def tunnelConnect (chunks : List (List Char)) : TunnelOutcome :=
  match readUntilTerminator chunks [] with
  | none => ⟨.failed .closedEarly, false⟩
  | some resp =>
    let statusLine : String := ⟨bytesFirstLine resp⟩
    if "200".data <:+: statusLine.data then ⟨.established, false⟩
    else ⟨.failed (.connectFailed statusLine), true⟩

/-! ## Channel Factory Override
(`_patched_create`, test_codespaces_modal.py lines 100-121 and
sandbox_shell.py lines 72-93). -/

/-- Which connection path `_patched_create` takes for a target host. -/
inductive ConnPath where
  | original
  | tunneled
deriving DecidableEq, Repr

/-- The chosen path together with how many times `_create_tunnel_socket`
was invoked for this connection attempt. -/
structure PatchedCreateResult where
  path : ConnPath
  tunnelCalls : Nat
deriving DecidableEq, Repr

/-- The loopback test of `_patched_create` (line 104):
`target_host in ("127.0.0.1", "localhost", "::1")`. -/
abbrev isLoopback (host : String) : Prop :=
  host = "127.0.0.1" ∨ host = "localhost" ∨ host = "::1"

/-- Model of `_patched_create`: delegate to the saved original `_create_connection`
for loopback targets; otherwise run `_create_tunnel_socket` once (in an
executor) and perform the TLS handshake over the tunneled socket. -/
def patched_create (host : String) : PatchedCreateResult :=
  if host = "127.0.0.1" ∨ host = "localhost" ∨ host = "::1" then ⟨.original, 0⟩
  else ⟨.tunneled, 1⟩

/-! ## CONNECT request construction
(`_setup_proxy_tunnel` lines 64-83 of test_codespaces_modal.py, identical
in sandbox_shell.py lines 37-55). -/

/-- The username/password components `urllib.parse.urlparse` extracts from
the proxy URL: `none` when absent, possibly the empty string. -/
structure ParsedProxy where
  username : Option String
  password : Option String
deriving DecidableEq, Repr

/-- Python truthiness of `parsed.username` / `parsed.password`:
`None` and the empty string are falsy. -/
def pyTruthy : Option String → Bool
  | none => false
  | some s => s != ""

/-- The base64 alphabet used by `base64.b64encode`. -/
def b64Alphabet : List Char :=
  "ABCDEFGHIJKLMNOPQRSTUVWXYZabcdefghijklmnopqrstuvwxyz0123456789+/".data

/-- Standard base64 of a byte list, with "=" padding. -/
def b64EncodeBytes : List Nat → List Char
  | [] => []
  | [b1] =>
    [b64Alphabet.getD (b1 / 4) 'A', b64Alphabet.getD (b1 % 4 * 16) 'A', '=', '=']
  | [b1, b2] =>
    [b64Alphabet.getD (b1 / 4) 'A', b64Alphabet.getD (b1 % 4 * 16 + b2 / 16) 'A',
     b64Alphabet.getD (b2 % 16 * 4) 'A', '=']
  | b1 :: b2 :: b3 :: rest =>
    b64Alphabet.getD (b1 / 4) 'A' ::
    b64Alphabet.getD (b1 % 4 * 16 + b2 / 16) 'A' ::
    b64Alphabet.getD (b2 % 16 * 4 + b3 / 64) 'A' ::
    b64Alphabet.getD (b3 % 64) 'A' :: b64EncodeBytes rest

/-- Model of `base64.b64encode(creds.encode()).decode()`, for ASCII credentials
(where each character is one byte). -/
def b64encode (s : String) : String :=
  ⟨b64EncodeBytes (s.data.map Char.toNat)⟩

/-- Lines 67-70: `proxy_auth` is set only when both `parsed.username` and
`parsed.password` are truthy, to the base64 of `f"username:password"`. -/
def proxyAuthToken (p : ParsedProxy) : Option String :=
  if pyTruthy p.username && pyTruthy p.password then
    some (b64encode ((p.username.getD "") ++ ":" ++ (p.password.getD "")))
  else none

/-- The CONNECT request string built in `_create_tunnel_socket`
(lines 79-82): request line and Host header, then the
`Proxy-Authorization: Basic` header exactly when `proxy_auth` is set,
then the terminating blank line. -/
def connectReq (host : String) (port : Nat) (auth : Option String) : String :=
  "CONNECT " ++ host ++ ":" ++ toString port ++ " HTTP/1.1\r\nHost: " ++
    host ++ ":" ++ toString port ++ "\r\n"
  ++ (match auth with
      | some a => "Proxy-Authorization: Basic " ++ a ++ "\r\n"
      | none => "")
  ++ "\r\n"

/-- The same request viewed as the list of CRLF-separated lines it is
concatenated from (the final empty line is the terminating blank line). -/
def connectReqLines (host : String) (port : Nat) (auth : Option String) :
    List String :=
  ["CONNECT " ++ host ++ ":" ++ toString port ++ " HTTP/1.1",
   "Host: " ++ host ++ ":" ++ toString port]
  ++ (match auth with
      | some a => ["Proxy-Authorization: Basic " ++ a]
      | none => [])
  ++ [""]

/-- Join lines with CRLF after each line. -/
def joinCRLF (lines : List String) : String :=
  match lines with
  | [] => ""
  | l :: rest => l ++ "\r\n" ++ joinCRLF rest

/-! ## Concurrency discipline of the Batch Runner
(lines 219-234).  `bounded_test` wraps the body of each task in
`async with semaphore` where `semaphore = asyncio.Semaphore(max_parallel)`:
a task suspends until one of the `max_parallel` slots is free, holds it
while `run_single_test` runs, and releases it on every exit path when the
`async with` block is left.  The single-threaded cooperative scheduler is
modelled as a small-step system: each of the `n` tasks is `waiting`,
`running` (with some remaining amount of cooperative work), or `done`, and
the event loop nondeterministically picks an enabled action.  `acquire i`
is enabled only while fewer than `limit` tasks hold a slot. -/

/-- The phase one batch task is in. -/
inductive TaskPhase where
  | waiting
  | running (work : Nat)
  | done
deriving DecidableEq, Repr

/-- One scheduling decision of the event loop. -/
inductive SchedAction where
  | acquire (i : Nat)
  | work (i : Nat)
  | finish (i : Nat)
deriving DecidableEq, Repr

/-- How many tasks currently hold a semaphore slot (are past acquisition
and not yet done). -/
def runningCount (ps : List TaskPhase) : Nat :=
  ps.countP fun p => match p with | .running _ => true | _ => false

/-- Apply one scheduling action if it is enabled in the given state:
a waiting task may acquire a slot only while fewer than `limit` tasks hold
one (`workOf i` is the cooperative work task `i` will perform); a running
task may make progress; a running task with no work left finishes,
releasing its slot. -/
def applySched (limit : Nat) (workOf : Nat → Nat) (ps : List TaskPhase) :
    SchedAction → Option (List TaskPhase)
  | .acquire i =>
    match ps[i]? with
    | some .waiting =>
      if runningCount ps < limit then some (ps.set i (.running (workOf i))) else none
    | _ => none
  | .work i =>
    match ps[i]? with
    | some (.running (k + 1)) => some (ps.set i (.running k))
    | _ => none
  | .finish i =>
    match ps[i]? with
    | some (.running 0) => some (ps.set i .done)
    | _ => none

/-- Run a whole schedule from a state; `none` if some action was not
enabled when its turn came. -/
def runSched (limit : Nat) (workOf : Nat → Nat) (ps : List TaskPhase) :
    List SchedAction → Option (List TaskPhase)
  | [] => some ps
  | a :: rest =>
    match applySched limit workOf ps a with
    | some ps1 => runSched limit workOf ps1 rest
    | none => none

/-- The initial state of a batch of `n` tasks: all waiting. -/
def initialPhases (n : Nat) : List TaskPhase := List.replicate n .waiting

/-- The order in which tasks complete under a schedule. -/
def completionOrder (acts : List SchedAction) : List Nat :=
  acts.filterMap fun a => match a with | .finish i => some i | _ => none

/-! ## Concrete inputs used by witnesses and counterexamples -/

/-- A behaviour in which every SDK call succeeds and the verification
command exits 0 with no output. -/
def behOk : SdkBehavior := ⟨.ok, .ok [] 0, none⟩

/-- A behaviour map making the task for identifier "B" fault with a
simulated exception while every other task succeeds. -/
def behMix (rid : String) : SdkBehavior :=
  if rid = "B" then ⟨.ok, .exc "RuntimeError" "simulated fault", none⟩ else behOk

/-- A 6000-character fault description. -/
def longFault : String := ⟨List.replicate 6000 'x'⟩

/-! ## Helper lemmas -/

/-- Appending through a left fold is flattening the per-element results. -/
theorem foldl_append_eq_flatten {α β : Type} (f : α → List β) :
    ∀ (xs : List α) (acc : List β),
      xs.foldl (fun acc x => acc ++ f x) acc = acc ++ (xs.map f).flatten := by
  intro xs
  induction xs with
  | nil => intro acc; simp
  | cons x rest ih => intro acc; simp [ih, List.append_assoc]

/-- The function `run_single_test` never changes the identifier of its result. -/
theorem run_single_test_repro_id (rid : String) (b : SdkBehavior) :
    (run_single_test rid b).1.repro_id = rid := by
  rcases b with ⟨c, e, t⟩
  cases c <;> try rfl
  cases e <;> try rfl
  cases t <;> rfl

/-- The function `run_single_test` always ends in one of the four terminal statuses. -/
theorem run_single_test_status_terminal (rid : String) (b : SdkBehavior) :
    (run_single_test rid b).1.status = .pass ∨ (run_single_test rid b).1.status = .fail
    ∨ (run_single_test rid b).1.status = .timeout
    ∨ (run_single_test rid b).1.status = .error := by
  rcases b with ⟨c, e, t⟩
  cases c with
  | timeoutErr => simp [run_single_test]
  | exc en m => simp [run_single_test]
  | ok =>
    cases e with
    | timeoutErr => simp [run_single_test]
    | exc en m => simp [run_single_test]
    | ok lines rc =>
      cases t with
      | none =>
        by_cases h : rc = 0 <;> simp [run_single_test, h]
      | some pr => simp [run_single_test]

/-- The results of the batch carry the submitted identifiers in order. -/
theorem run_tests_parallel_ids (ids : List String) (b : String → SdkBehavior) :
    (run_tests_parallel ids b).map TaskResult.repro_id = ids := by
  induction ids with
  | nil => rfl
  | cons x rest ih =>
    simpa [run_tests_parallel, run_single_test_repro_id] using ih

/-! ## C6: the Result Classifier -/

/-- C6: the Result Classifier is a pure function of the output text whose
detections come in first-seen order (the fold over the lines flattens the
per-line detections in order); on "bash: foo123: command not found" it
emits a command dependency "foo123"; on "ModuleNotFoundError: No module
named 'numpy'" an interpreter-module (python) dependency "numpy"; on
"Error: Cannot find module 'left-pad'" a package (npm) dependency
"left-pad"; and on "Cannot find module './local'" nothing, since names
starting with "/" or "." are excluded. -/
theorem c6_classifier_cases :
    classify "bash: foo123: command not found" = [⟨.command, "foo123"⟩]
    ∧ classify "ModuleNotFoundError: No module named 'numpy'" = [⟨.python, "numpy"⟩]
    ∧ classify "Error: Cannot find module 'left-pad'" = [⟨.npm, "left-pad"⟩]
    ∧ classify "Cannot find module './local'" = []
    ∧ ∀ output : String,
        classify output = ((splitOnChar '\n' output.data).map classifyLine).flatten := by
  refine ⟨by decide, by decide, by decide, by decide, ?_⟩
  intro output
  simpa using foldl_append_eq_flatten classifyLine (splitOnChar '\n' output.data) []

/-! ## C5: the Channel Factory Override and loopback targets -/

/-- C5: for loopback hosts ("127.0.0.1", "localhost", "::1") the patched
connection factory delegates to the original path and never invokes the
tunnel connector; for every other host each connection attempt invokes the
tunnel connector exactly once. -/
theorem c5_loopback_bypass (host : String) :
    (isLoopback host → patched_create host = ⟨.original, 0⟩)
    ∧ (¬ isLoopback host → patched_create host = ⟨.tunneled, 1⟩) := by
  constructor
  · intro h
    unfold patched_create
    rw [if_pos h]
  · intro h
    unfold patched_create
    rw [if_neg h]

/-- Witness for C5 at the loopback host "localhost" and the non-loopback
host "api.modal.com". -/
theorem c5_loopback_bypass_witness :
    patched_create "localhost" = ⟨.original, 0⟩
    ∧ patched_create "api.modal.com" = ⟨.tunneled, 1⟩ :=
  ⟨(c5_loopback_bypass "localhost").1 (by decide),
   (c5_loopback_bypass "api.modal.com").2 (by decide)⟩

/-! ## C1: sandbox teardown on every exit path -/

/-- C1 (code bug): when sandbox creation succeeds and the exec or
output-collection step then raises, `run_single_test` catches the
exception and yields a TaskResult with status `error` WITHOUT ever calling
`sb.terminate.aio` — the `try` block (lines 144-165) has no `finally`, and
`terminate` is only reached on the normal path.  At this concrete input
the count of teardown calls (0) differs from the count of successful
creations (1), contradicting the claimed guarantee.  (The sibling script
sandbox_shell.py, lines 138-156, does wrap `terminate` in `finally`,
showing the intended discipline.) -/
theorem c1_teardown_skipped_on_fault :
    (run_single_test "REPRO-2026-00105"
      ⟨.ok, .exc "ValueError" "boom", none⟩).1.status = .error
    ∧ (run_single_test "REPRO-2026-00105"
      ⟨.ok, .exc "ValueError" "boom", none⟩).2.count .created = 1
    ∧ (run_single_test "REPRO-2026-00105"
      ⟨.ok, .exc "ValueError" "boom", none⟩).2.count .terminated = 0 := by
  decide

/-! ## C3: exactly one terminal TaskResult per identifier -/

/-- C3: every submitted identifier produces exactly one TaskResult, in
order, whose status is one of pass, fail, timeout, error — whatever the
SDK behaviour is, including exceptions, which are downgraded to status
`error`; and the result at each position depends only on that
identifier's own SDK behaviour, so a fault in one task never alters a
sibling's result. -/
theorem c3_one_terminal_result_each (ids : List String)
    (b b' : String → SdkBehavior) :
    (run_tests_parallel ids b).map TaskResult.repro_id = ids
    ∧ (∀ r ∈ run_tests_parallel ids b,
        r.status = .pass ∨ r.status = .fail ∨ r.status = .timeout ∨ r.status = .error)
    ∧ (∀ i, i < ids.length → b (ids.getD i "") = b' (ids.getD i "") →
        (run_tests_parallel ids b).getD i defaultTaskResult
          = (run_tests_parallel ids b').getD i defaultTaskResult) := by
  refine ⟨run_tests_parallel_ids ids b, ?_, ?_⟩
  · intro r hr
    obtain ⟨rid, _, hrid⟩ := List.mem_map.mp hr
    rw [← hrid]
    exact run_single_test_status_terminal rid (b rid)
  · intro i hi hbb
    have hv : ids[i]? = some ids[i] := List.getElem?_eq_getElem hi
    have hid : ids.getD i "" = ids[i] := by
      rw [List.getD_eq_getElem?_getD, hv]; rfl
    rw [hid] at hbb
    simp only [run_tests_parallel, List.getD_eq_getElem?_getD, List.getElem?_map, hv]
    simp [hbb]

/-- Witness for C3: a two-identifier batch where the sibling behaviour
maps agree on "A" but make "B" fault. -/
theorem c3_one_terminal_result_each_witness :
    (run_tests_parallel ["A", "B"] (fun _ => behOk)).map TaskResult.repro_id = ["A", "B"]
    ∧ ((run_single_test "A" behOk).1.status = .pass
        ∨ (run_single_test "A" behOk).1.status = .fail
        ∨ (run_single_test "A" behOk).1.status = .timeout
        ∨ (run_single_test "A" behOk).1.status = .error)
    ∧ (run_tests_parallel ["A", "B"] (fun _ => behOk)).getD 0 defaultTaskResult
        = (run_tests_parallel ["A", "B"] behMix).getD 0 defaultTaskResult := by
  have h := c3_one_terminal_result_each ["A", "B"] (fun _ => behOk) behMix
  exact ⟨h.1, h.2.1 (run_single_test "A" behOk).1 (by decide),
         h.2.2 0 (by decide) (by decide)⟩

/-! ## C9: process exit code -/

/-- C9: the exit decision of the batch (non-zero iff `failed > 0` or
`errors > 0`) is non-zero exactly when some task's terminal status is not
`pass`: since every terminal status is pass, fail, timeout or error, a
non-pass result is counted either by `failed` (fail) or by `errors`
(error, timeout), and conversely. -/
theorem c9_exit_nonzero_iff_nonpass (ids : List String) (b : String → SdkBehavior) :
    processExitCode (run_tests_parallel ids b) ≠ 0
    ↔ ∃ r ∈ run_tests_parallel ids b, r.status ≠ .pass := by
  have hterm : ∀ r ∈ run_tests_parallel ids b,
      r.status = .pass ∨ r.status = .fail ∨ r.status = .timeout ∨ r.status = .error := by
    intro r hr
    obtain ⟨rid, _, hrid⟩ := List.mem_map.mp hr
    rw [← hrid]
    exact run_single_test_status_terminal rid (b rid)
  have hexit : processExitCode (run_tests_parallel ids b) ≠ 0
      ↔ (0 < countFailed (run_tests_parallel ids b)
          ∨ 0 < countErrors (run_tests_parallel ids b)) := by
    unfold processExitCode
    by_cases hc : 0 < countFailed (run_tests_parallel ids b)
        ∨ 0 < countErrors (run_tests_parallel ids b) <;> simp [hc]
  rw [hexit]
  unfold countFailed countErrors
  rw [List.countP_pos_iff, List.countP_pos_iff]
  constructor
  · rintro (⟨r, hr, h⟩ | ⟨r, hr, h⟩)
    · refine ⟨r, hr, ?_⟩
      have : r.status = .fail := by simpa using h
      simp [this]
    · refine ⟨r, hr, ?_⟩
      have : r.status = .error ∨ r.status = .timeout := by simpa using h
      rcases this with h1 | h1 <;> simp [h1]
  · rintro ⟨r, hr, hne⟩
    rcases hterm r hr with h | h | h | h
    · exact absurd h hne
    · exact Or.inl ⟨r, hr, by simp [h]⟩
    · exact Or.inr ⟨r, hr, by simp [h]⟩
    · exact Or.inr ⟨r, hr, by simp [h]⟩

/-! ## C8: output bounds -/

/-- The function `pyTakeLast` never yields more than `n` characters. -/
theorem pyTakeLast_length_le (n : Nat) (s : String) : (pyTakeLast n s).length ≤ n := by
  show (s.data.drop (s.data.length - n)).length ≤ n
  rw [List.length_drop]
  omega

/-- The function `pyTakeLast` yields a suffix of the original characters. -/
theorem pyTakeLast_suffix (n : Nat) (s : String) : (pyTakeLast n s).data <:+ s.data := by
  show (s.data.drop (s.data.length - n)) <:+ s.data
  exact List.drop_suffix _ _

/-- C8 (counterexample): a fault description longer than 5000 characters
is stored in the stderr field in full — the code never truncates stderr,
so the claimed 5000-byte bound fails. -/
theorem c8_stderr_unbounded_counterexample :
    5000 < ((run_single_test "REPRO-2026-00105"
      ⟨.ok, .exc "ValueError" longFault, none⟩).1.stderr).length := by
  have h : (run_single_test "REPRO-2026-00105"
      ⟨.ok, .exc "ValueError" longFault, none⟩).1.stderr
      = "ValueError" ++ ": " ++ longFault := rfl
  rw [h, String.length_append, String.length_append]
  have h1 : ("ValueError" : String).length = 10 := rfl
  have h2 : (": " : String).length = 2 := rfl
  have h3 : longFault.length = 6000 := by
    show (List.replicate 6000 'x').length = 6000
    exact List.length_replicate 6000 'x'
  omega

/-- C8 (amended): the stdout field always holds at most the last 10000
characters of the accumulated output (and is a suffix of it), but the
stderr field is the fault description in full — no 5000-byte bound is
applied to it anywhere in `run_single_test`. -/
theorem c8_amended_output_bounds (rid : String) (b : SdkBehavior) :
    (run_single_test rid b).1.stdout.length ≤ 10000
    ∧ (∀ lines rc tm, (run_single_test rid ⟨.ok, .ok lines rc, tm⟩).1.stdout.data
        <:+ (String.join lines).data)
    ∧ (∀ ename msg tm, (run_single_test rid ⟨.ok, .exc ename msg, tm⟩).1.stderr
        = ename ++ ": " ++ msg) := by
  refine ⟨?_, ?_, ?_⟩
  · rcases b with ⟨c, e, t⟩
    cases c with
    | timeoutErr => simp [run_single_test]
    | exc en m => simp [run_single_test]
    | ok =>
      cases e with
      | timeoutErr => simp [run_single_test]
      | exc en m => simp [run_single_test]
      | ok lines rc =>
        cases t with
        | none => exact pyTakeLast_length_le 10000 (String.join lines)
        | some pr => exact pyTakeLast_length_le 10000 (String.join lines)
  · intro lines rc tm
    have hstdout : (run_single_test rid ⟨.ok, .ok lines rc, tm⟩).1.stdout
        = pyTakeLast 10000 (String.join lines) := by
      cases tm with
      | none => rfl
      | some pr => rfl
    rw [hstdout]
    exact pyTakeLast_suffix 10000 (String.join lines)
  · intro ename msg tm
    rfl

/-! ## C7: completion order vs submission order -/

/-- C7 (counterexample): under the bounded-concurrency discipline there is
a legal schedule of the batch ["A", "B"] (limit 2) in which task 1 ("B")
finishes before task 0 ("A") — completion order [1, 0] — yet
`asyncio.gather` resolves with one result per submitted awaitable in
submission order, so the returned sequence still lists "A" first: the
output order is submission order, not completion order. -/
theorem c7_completion_order_counterexample :
    runSched 2 (fun _ => 0) (initialPhases 2)
      [.acquire 0, .acquire 1, .finish 1, .finish 0] = some [.done, .done]
    ∧ completionOrder [.acquire 0, .acquire 1, .finish 1, .finish 0] = [1, 0]
    ∧ (run_tests_parallel ["A", "B"] (fun _ => behOk)).map TaskResult.repro_id = ["A", "B"]
    ∧ (["A", "B"] : List String) ≠ ["B", "A"] := by
  decide

/-- C7 (amended): `run_tests_parallel` returns exactly one TaskResult per
identifier in SUBMISSION order — the i-th result belongs to the i-th
identifier — independent of the order in which tasks complete, because
`asyncio.gather` resolves in the order the awaitables were passed. -/
theorem c7_submission_order (ids : List String) (b : String → SdkBehavior) :
    (run_tests_parallel ids b).map TaskResult.repro_id = ids :=
  run_tests_parallel_ids ids b

/-! ## C2: the concurrency bound -/

/-- Whether a phase holds a semaphore slot. -/
theorem runningCount_eq (ps : List TaskPhase) :
    runningCount ps = ps.countP fun p => match p with | .running _ => true | _ => false :=
  rfl

/-- Replacing one known element changes a `countP` by the difference of
the two elements' predicate values. -/
theorem countP_set_eq {α : Type} (p : α → Bool) :
    ∀ (l : List α) (i : Nat) (a b : α), l[i]? = some a →
      (l.set i b).countP p + (if p a then 1 else 0)
        = l.countP p + (if p b then 1 else 0) := by
  intro l
  induction l with
  | nil => intro i a b h; simp at h
  | cons x rest ih =>
    intro i a b h
    cases i with
    | zero =>
      simp only [List.getElem?_cons_zero, Option.some.injEq] at h
      subst h
      simp [List.countP_cons]
      omega
    | succ n =>
      simp only [List.getElem?_cons_succ] at h
      have := ih n a b h
      simp [List.countP_cons]
      omega

/-- Inversion of an enabled `acquire` step. -/
theorem applySched_acquire_inv {limit : Nat} {workOf : Nat → Nat}
    {ps ps' : List TaskPhase} {i : Nat}
    (h : applySched limit workOf ps (.acquire i) = some ps') :
    ps[i]? = some .waiting ∧ runningCount ps < limit
    ∧ ps' = ps.set i (.running (workOf i)) := by
  simp only [applySched] at h
  cases hp : ps[i]? with
  | none => rw [hp] at h; cases h
  | some ph =>
    rw [hp] at h
    cases ph with
    | waiting =>
      by_cases hc : runningCount ps < limit
      · rw [if_pos hc] at h
        exact ⟨rfl, hc, (Option.some.inj h).symm⟩
      · rw [if_neg hc] at h; cases h
    | running k => cases h
    | done => cases h

/-- Inversion of an enabled `work` step. -/
theorem applySched_work_inv {limit : Nat} {workOf : Nat → Nat}
    {ps ps' : List TaskPhase} {i : Nat}
    (h : applySched limit workOf ps (.work i) = some ps') :
    ∃ k, ps[i]? = some (.running (k + 1)) ∧ ps' = ps.set i (.running k) := by
  simp only [applySched] at h
  cases hp : ps[i]? with
  | none => rw [hp] at h; cases h
  | some ph =>
    rw [hp] at h
    cases ph with
    | waiting => cases h
    | running k =>
      cases k with
      | zero => cases h
      | succ m => exact ⟨m, rfl, (Option.some.inj h).symm⟩
    | done => cases h

/-- Inversion of an enabled `finish` step. -/
theorem applySched_finish_inv {limit : Nat} {workOf : Nat → Nat}
    {ps ps' : List TaskPhase} {i : Nat}
    (h : applySched limit workOf ps (.finish i) = some ps') :
    ps[i]? = some (.running 0) ∧ ps' = ps.set i .done := by
  simp only [applySched] at h
  cases hp : ps[i]? with
  | none => rw [hp] at h; cases h
  | some ph =>
    rw [hp] at h
    cases ph with
    | waiting => cases h
    | running k =>
      cases k with
      | zero => exact ⟨rfl, (Option.some.inj h).symm⟩
      | succ m => cases h
    | done => cases h

/-- One enabled step keeps the slot count within the limit. -/
theorem applySched_runningCount_le {limit : Nat} {workOf : Nat → Nat}
    {ps ps' : List TaskPhase} {a : SchedAction}
    (h : applySched limit workOf ps a = some ps')
    (hle : runningCount ps ≤ limit) : runningCount ps' ≤ limit := by
  cases a with
  | acquire i =>
    obtain ⟨hp, hc, hset⟩ := applySched_acquire_inv h
    have hcount := countP_set_eq
      (fun p => match p with | .running _ => true | _ => false)
      ps i .waiting (.running (workOf i)) hp
    subst hset
    simp only [runningCount_eq] at *
    simp at hcount
    omega
  | work i =>
    obtain ⟨k, hp, hset⟩ := applySched_work_inv h
    have hcount := countP_set_eq
      (fun p => match p with | .running _ => true | _ => false)
      ps i (.running (k + 1)) (.running k) hp
    subst hset
    simp only [runningCount_eq] at *
    simp at hcount
    omega
  | finish i =>
    obtain ⟨hp, hset⟩ := applySched_finish_inv h
    have hcount := countP_set_eq
      (fun p => match p with | .running _ => true | _ => false)
      ps i (.running 0) .done hp
    subst hset
    simp only [runningCount_eq] at *
    simp at hcount
    omega

/-- The slot count stays within the limit along any whole schedule. -/
theorem runSched_runningCount_le (limit : Nat) (workOf : Nat → Nat) :
    ∀ (acts : List SchedAction) (ps ps' : List TaskPhase),
      runningCount ps ≤ limit → runSched limit workOf ps acts = some ps' →
      runningCount ps' ≤ limit := by
  intro acts
  induction acts with
  | nil =>
    intro ps ps' h hr
    simp only [runSched] at hr
    exact (Option.some.inj hr) ▸ h
  | cons a rest ih =>
    intro ps ps' h hr
    unfold runSched at hr
    cases ha : applySched limit workOf ps a with
    | none => rw [ha] at hr; cases hr
    | some ps1 =>
      rw [ha] at hr
      exact ih ps1 ps' (applySched_runningCount_le ha h) hr

/-- A task that is no longer waiting at the end of a schedule acquired a
slot at some point of the schedule. -/
theorem runSched_acquired_of_started (limit : Nat) (workOf : Nat → Nat) :
    ∀ (acts : List SchedAction) (ps ps' : List TaskPhase) (i : Nat),
      runSched limit workOf ps acts = some ps' →
      ps[i]? = some .waiting → ps'[i]? ≠ some .waiting →
      SchedAction.acquire i ∈ acts := by
  intro acts
  induction acts with
  | nil =>
    intro ps ps' i hr hw hnw
    simp only [runSched] at hr
    exact absurd ((Option.some.inj hr) ▸ hw) hnw
  | cons a rest ih =>
    intro ps ps' i hr hw hnw
    unfold runSched at hr
    cases ha : applySched limit workOf ps a with
    | none => rw [ha] at hr; cases hr
    | some ps1 =>
      rw [ha] at hr
      by_cases hai : a = .acquire i
      · rw [hai]; exact List.mem_cons_self _ _
      · have hw1 : ps1[i]? = some .waiting := by
          cases a with
          | acquire j =>
            obtain ⟨hp, _, hset⟩ := applySched_acquire_inv ha
            have hji : j ≠ i := fun hji => hai (by rw [hji])
            rw [hset, List.getElem?_set_ne hji]
            exact hw
          | work j =>
            obtain ⟨k, hp, hset⟩ := applySched_work_inv ha
            by_cases hji : j = i
            · rw [hji] at hp; rw [hp] at hw; cases hw
            · rw [hset, List.getElem?_set_ne hji]
              exact hw
          | finish j =>
            obtain ⟨hp, hset⟩ := applySched_finish_inv ha
            by_cases hji : j = i
            · rw [hji] at hp; rw [hp] at hw; cases hw
            · rw [hset, List.getElem?_set_ne hji]
              exact hw
        exact List.mem_cons_of_mem _ (ih ps1 ps' i hr hw1 hnw)

/-- C2: under the semaphore discipline of `bounded_test`, for any number
of identifiers, any schedule the event loop takes and any limit at least
1, the number of tasks that are past slot acquisition and still executing
never exceeds the limit — at every point of the run, since every reachable
state is itself reached by a schedule; moreover any task that got past the
waiting phase did acquire a slot during the schedule. -/
theorem c2_concurrency_bounded (limit : Nat) (workOf : Nat → Nat) (n : Nat)
    (acts : List SchedAction) (ps : List TaskPhase)
    (hlim : 1 ≤ limit)
    (hrun : runSched limit workOf (initialPhases n) acts = some ps) :
    runningCount ps ≤ limit
    ∧ ∀ i, i < n → ps[i]? ≠ some .waiting → SchedAction.acquire i ∈ acts := by
  constructor
  · apply runSched_runningCount_le limit workOf acts _ _ _ hrun
    have : runningCount (initialPhases n) = 0 := by
      simp only [runningCount_eq, initialPhases]
      induction n with
      | zero => rfl
      | succ m ih => simp [List.replicate_succ, List.countP_cons, ih]
    omega
  · intro i hin hnw
    apply runSched_acquired_of_started limit workOf acts _ _ i hrun _ hnw
    simp [initialPhases, List.getElem?_replicate, hin]

/-- Witness for C2: a batch of two tasks behind a one-slot semaphore,
scheduled strictly one after the other. -/
theorem c2_concurrency_bounded_witness :
    runningCount [TaskPhase.done, TaskPhase.done] ≤ 1
    ∧ SchedAction.acquire 0
        ∈ [SchedAction.acquire 0, .finish 0, .acquire 1, .finish 1] := by
  have h := c2_concurrency_bounded 1 (fun _ => 0) 2
    [.acquire 0, .finish 0, .acquire 1, .finish 1] [.done, .done]
    (by decide) (by decide)
  exact ⟨h.1, h.2 0 (by decide) (by decide)⟩

/-! ## C4: the CONNECT response handling -/

/-- An infix of a list is an infix of any right-extension of it. -/
theorem infix_append_right {α : Type} {l m : List α} (t : List α)
    (h : l <:+: m) : l <:+: m ++ t :=
  h.trans (List.prefix_append m t).isInfix

/-- If the terminator never occurs in what the socket can still deliver,
the read loop raises: the proxy closed before `\r\n\r\n` was seen. -/
theorem readUntilTerminator_none :
    ∀ (chunks : List (List Char)) (acc : List Char),
      ¬ (crlfcrlf <:+: acc ++ chunks.flatten) →
      readUntilTerminator chunks acc = none := by
  intro chunks
  induction chunks with
  | nil =>
    intro acc h
    rw [List.flatten_nil, List.append_nil] at h
    unfold readUntilTerminator
    rw [if_neg h]
  | cons chunk rest ih =>
    intro acc h
    rw [List.flatten_cons] at h
    unfold readUntilTerminator
    rw [if_neg (fun hc => h (by
      rw [← List.append_assoc]
      exact infix_append_right _ (infix_append_right _ hc)))]
    show (if chunk = [] then none else readUntilTerminator rest (acc ++ chunk)) = none
    by_cases hch : chunk = []
    · rw [if_pos hch]
    · rw [if_neg hch]
      apply ih
      intro hc
      apply h
      rw [List.append_assoc] at hc
      exact hc

/-- C4 (counterexample): the code checks only that the status line
CONTAINS the token "200", so the CONNECT succeeds on the status line
"HTTP/1.0 200 OK", which is not "HTTP/1.1 200 Connection established" —
the claim's "succeeds only when the first response line is
HTTP/1.1 200 Connection established" is false. -/
theorem c4_substring_200_counterexample :
    tunnelConnect [("HTTP/1.0 200 OK\r\n\r\n").data] = ⟨.established, false⟩
    ∧ (⟨bytesFirstLine ("HTTP/1.0 200 OK\r\n\r\n").data⟩ : String)
        ≠ "HTTP/1.1 200 Connection established" := by
  decide

/-- C4 (amended): the tunnel connector fails (closing the socket, with the
status line attached) on the response line "HTTP/1.1 403 Forbidden" and
succeeds on "HTTP/1.1 200 Connection established"; it fails when the proxy
closes the connection before the `\r\n\r\n` terminator is seen; and in
general, once a response up to the terminator is read, it succeeds exactly
when the first response line contains the substring "200" (not only when
it is the exact line "HTTP/1.1 200 Connection established"). -/
theorem c4_amended_tunnel (chunks : List (List Char)) :
    tunnelConnect [("HTTP/1.1 403 Forbidden\r\n\r\n").data]
      = ⟨.failed (.connectFailed "HTTP/1.1 403 Forbidden"), true⟩
    ∧ tunnelConnect [("HTTP/1.1 200 Connection established\r\n\r\n").data]
      = ⟨.established, false⟩
    ∧ (¬ (crlfcrlf <:+: chunks.flatten) →
        tunnelConnect chunks = ⟨.failed .closedEarly, false⟩)
    ∧ (∀ resp, readUntilTerminator chunks [] = some resp →
        tunnelConnect chunks =
          if "200".data <:+: bytesFirstLine resp then ⟨.established, false⟩
          else ⟨.failed (.connectFailed ⟨bytesFirstLine resp⟩), true⟩) := by
  refine ⟨by decide, by decide, ?_, ?_⟩
  · intro h
    unfold tunnelConnect
    rw [readUntilTerminator_none chunks [] (by simpa using h)]
  · intro resp hresp
    unfold tunnelConnect
    rw [hresp]

/-- Witness for C4: the early-close case at a one-chunk socket that never
delivers the terminator, and the general 200-substring rule applied to the
concrete 403 response. -/
theorem c4_amended_tunnel_witness :
    tunnelConnect [['x']] = ⟨.failed .closedEarly, false⟩
    ∧ tunnelConnect [("HTTP/1.1 403 Forbidden\r\n\r\n").data]
      = ⟨.failed (.connectFailed "HTTP/1.1 403 Forbidden"), true⟩ := by
  refine ⟨(c4_amended_tunnel [['x']]).2.2.1 (by decide), ?_⟩
  have h := (c4_amended_tunnel [("HTTP/1.1 403 Forbidden\r\n\r\n").data]).2.2.2
    ("HTTP/1.1 403 Forbidden\r\n\r\n").data (by decide)
  rw [h]
  decide

/-! ## C10: the Proxy-Authorization header -/

/-- The flat CONNECT request string is the CRLF-join of its header lines,
for either value of `proxy_auth`. -/
theorem connectReq_eq_joinCRLF (host : String) (port : Nat) (auth : Option String) :
    connectReq host port auth = joinCRLF (connectReqLines host port auth) := by
  have hsplit : (" HTTP/1.1\r\nHost: " : String).data
      = (" HTTP/1.1" : String).data ++ ("\r\n" : String).data
        ++ ("Host: " : String).data := rfl
  have hempty : ("" : String).data = ([] : List Char) := rfl
  cases auth with
  | none =>
    apply String.ext
    simp only [connectReq, connectReqLines, joinCRLF, List.cons_append,
      List.nil_append, String.data_append, hsplit, hempty, List.append_nil,
      List.append_assoc]
  | some a =>
    apply String.ext
    simp only [connectReq, connectReqLines, joinCRLF, List.cons_append,
      List.nil_append, String.data_append, hsplit, hempty, List.append_nil,
      List.append_assoc]

/-- A Proxy-Authorization header line never coincides with the CONNECT
request line (their first characters differ). -/
theorem proxy_line_ne_connect (a rest : String) :
    ("Proxy-Authorization: Basic " ++ a) ≠ ("CONNECT " ++ rest) := by
  intro h
  have hd : ('P' : Char) :: (("roxy-Authorization: Basic " : String).data ++ a.data)
      = ('C' : Char) :: (("ONNECT " : String).data ++ rest.data) :=
    congrArg String.data h
  exact absurd (List.cons.inj hd).1 (by decide)

/-- A Proxy-Authorization header line never coincides with the Host
header line. -/
theorem proxy_line_ne_host (a rest : String) :
    ("Proxy-Authorization: Basic " ++ a) ≠ ("Host: " ++ rest) := by
  intro h
  have hd : ('P' : Char) :: (("roxy-Authorization: Basic " : String).data ++ a.data)
      = ('H' : Char) :: (("ost: " : String).data ++ rest.data) :=
    congrArg String.data h
  exact absurd (List.cons.inj hd).1 (by decide)

/-- A Proxy-Authorization header line is never the terminating blank
line. -/
theorem proxy_line_ne_empty (a : String) :
    ("Proxy-Authorization: Basic " ++ a) ≠ "" := by
  intro h
  have hd : ('P' : Char) :: (("roxy-Authorization: Basic " : String).data ++ a.data)
      = ([] : List Char) := congrArg String.data h
  cases hd

/-- C10: the CONNECT request (equal to the CRLF-join of its lines)
contains a `Proxy-Authorization: Basic` header line exactly when the
parsed proxy URL supplies both a (truthy) username and a (truthy)
password; when only one of the two is present, `proxy_auth` stays unset
and the request is sent with no such header. -/
theorem c10_proxy_auth_header_iff (p : ParsedProxy) (host : String) (port : Nat) :
    connectReq host port (proxyAuthToken p)
      = joinCRLF (connectReqLines host port (proxyAuthToken p))
    ∧ ((∃ a, ("Proxy-Authorization: Basic " ++ a)
          ∈ connectReqLines host port (proxyAuthToken p))
        ↔ (pyTruthy p.username = true ∧ pyTruthy p.password = true)) := by
  refine ⟨connectReq_eq_joinCRLF host port (proxyAuthToken p), ?_⟩
  by_cases hb : pyTruthy p.username = true ∧ pyTruthy p.password = true
  · have hauth : proxyAuthToken p
        = some (b64encode ((p.username.getD "") ++ ":" ++ (p.password.getD ""))) := by
      unfold proxyAuthToken
      rw [if_pos (by rw [hb.1, hb.2]; rfl)]
    constructor
    · intro _; exact hb
    · intro _
      refine ⟨b64encode ((p.username.getD "") ++ ":" ++ (p.password.getD "")), ?_⟩
      simp [connectReqLines, hauth]
  · have hauth : proxyAuthToken p = none := by
      unfold proxyAuthToken
      rw [if_neg ?hneg]
      case hneg =>
        intro hc
        rcases Bool.and_eq_true_iff.mp hc with ⟨h1, h2⟩
        exact hb ⟨h1, h2⟩
    constructor
    · rintro ⟨a, ha⟩
      exfalso
      simp only [connectReqLines, hauth, List.cons_append, List.nil_append,
        List.mem_cons, List.not_mem_nil, or_false, List.mem_singleton] at ha
      rcases ha with h1 | h1 | h1
      · exact proxy_line_ne_connect a _ h1
      · exact proxy_line_ne_host a _ h1
      · exact proxy_line_ne_empty a h1
    · intro hc
      exact absurd hc hb

end Pruva
